import Mathlib

/-!
Verification of the portable ECG / SpO2 monitor's processing core.

Shallow embedding of the Python sources:
  * `heartrate_algorithm.py` — FIR filter and QRS detector (`ECGRespirationAlgorithm`);
  * `spo2_algorithm.py`      — `estimate_spo2` and its calibration table;
  * `process_data.py`        — the packet state machine `process_data` and the
    pipeline it drives (QRS update, rolling IR/RED windows, heart-rate and
    SpO2 emission to the UI).

Numeric conventions: Python ints are ℤ (or ℕ for byte-level data), Python
floats are ℚ.  Python's `int(x)` applied to a float truncates toward zero,
`//` on ints is floor division, `>>` on ints is an arithmetic (floor) shift.
-/

set_option maxRecDepth 8000

namespace Monitor

/-!
### Computable rational arithmetic

The library definitions `Rat.add`, `Rat.sub`, `Rat.mul` and `Rat.inv` are
`@[irreducible]`, which blocks kernel evaluation of concrete rational
expressions.  The embedding therefore computes with the `mkRat`-based
operations below; each is proved equal to the corresponding standard
operation, so every statement about the model is a statement about ordinary
rational arithmetic.
-/

/-- Rational addition, computably. -/
def qadd (a b : ℚ) : ℚ := mkRat (a.num * b.den + b.num * a.den) (a.den * b.den)

/-- Rational subtraction, computably. -/
def qsub (a b : ℚ) : ℚ := mkRat (a.num * b.den - b.num * a.den) (a.den * b.den)

/-- Rational multiplication, computably. -/
def qmul (a b : ℚ) : ℚ := mkRat (a.num * b.num) (a.den * b.den)

/-- Rational inverse, computably (`qinv 0 = 0`). -/
def qinv (a : ℚ) : ℚ := Rat.divInt a.den a.num

/-- Rational division, computably (`qdiv a 0 = 0`, as in `Rat.div`). -/
def qdiv (a b : ℚ) : ℚ := qmul a (qinv b)

/-- Sum of a list of rationals, computably. -/
def qsum (l : List ℚ) : ℚ := l.foldr qadd 0

/-- Binary maximum (Python's `max`). -/
def pymax (a b : ℚ) : ℚ := if a ≤ b then b else a

/-- Binary minimum (Python's `min`). -/
def pymin (a b : ℚ) : ℚ := if b ≤ a then b else a

/-- Absolute value (`np.abs`). -/
def qabs (a : ℚ) : ℚ := pymax a (-a)

/-- Truncation toward zero of a rational, the behavior of Python's `int()`
on a float value.  `Int.tdiv` rounds toward zero and `q.den` is positive. -/
def pytrunc (q : ℚ) : ℤ := q.num.tdiv q.den

/-- Mean of a list of rationals (`np.mean`). -/
def qmean (l : List ℚ) : ℚ := qdiv (qsum l) (l.length : ℚ)

/-- Maximum of a list of rationals (`np.max`); the sources only apply it to
non-empty slices, for which the `headD` seed is exact. -/
def listMax (l : List ℚ) : ℚ := l.foldl pymax (l.headD 0)

/-- Wrapping into a signed 16-bit integer, the behavior of `np.int16`. -/
def int16wrap (z : ℤ) : ℤ := (z + 32768) % 65536 - 32768

/-! ## heartrate_algorithm.py -/

/-- `CoeffBuf_40Hz_LowPass`, the 161 fixed FIR coefficients. -/
def CoeffBuf_40Hz_LowPass : List ℤ := [
  -72, 122, -31, -99, 117, 0, -121, 105, 34,
  -137, 84, 70, -146, 55, 104, -147, 20, 135,
  -137, -21, 160, -117, -64, 177, -87, -108, 185,
  -48, -151, 181, 0, -188, 164, 54, -218, 134,
  112, -238, 90, 171, -244, 33, 229, -235, -36,
  280, -208, -115, 322, -161, -203, 350, -92, -296,
  361, 0, -391, 348, 117, -486, 305, 264, -577,
  225, 445, -660, 93, 676, -733, -119, 991, -793,
  -480, 1486, -837, -1226, 2561, -865, -4018, 9438, 20972,
  9438, -4018, -865, 2561, -1226, -837, 1486, -480, -793,
  991, -119, -733, 676, 93, -660, 445, 225, -577,
  264, 305, -486, 117, 348, -391, 0, 361, -296,
  -92, 350, -203, -161, 322, -115, -208, 280, -36,
  -235, 229, 33, -244, 171, 90, -238, 112, 134,
  -218, 54, 164, -188, 0, 181, -151, -48, 185,
  -108, -87, 177, -64, -117, 160, -21, -137, 135,
  20, -147, 104, 55, -146, 70, 84, -137, 34,
  105, -121, 0, 117, -99, -31, 122, -72]

/-- `ecg_filter_process(working_buff, coeff_buf)` specialised to the fixed
coefficient buffer, as the class always calls it.  `np.dot` is the
multiply-accumulate; `int(acc)` truncates; the accumulator is saturated to
the signed 30-bit range and arithmetic-shifted right by 15; `np.int16`
wraps the final value.  (The `np.convolve` result computed by the source is
discarded, so it is not modelled.) -/
def ecg_filter_process (working_buff : List ℚ) : ℤ :=
  let acc0 : ℚ := qsum (List.zipWith (fun (c : ℤ) (w : ℚ) => qmul (c : ℚ) w)
    CoeffBuf_40Hz_LowPass working_buff)
  let acc : ℤ := pytrunc acc0
  let accSat : ℤ := max (min acc 0x3fffffff) (-0x40000000)
  int16wrap (accSat >>> (15 : ℕ))

/-- The mutable state of `ECGRespirationAlgorithm` that the QRS path uses
(the `process_current_sample` FIR path is independent and never invoked by
`process_data`).  `maxd` is the source's `self.max`.  `prev_data` is an
`np.int16` array, newest first; `qrs_samples` is newest first;
`sample_index` is the 6-slot timestamp array. -/
structure QrsState where
  maxd : ℤ
  qrs_b4_buffer_ptr : ℕ
  qrs_threshold_old : ℤ
  qrs_threshold_new : ℤ
  first_peak_detected : Bool
  heart_rate : ℚ
  qrs_samples : List ℤ
  prev_data : List ℤ
  sample_count : ℤ
  nopeak_count : ℤ
  maxima_search : ℤ
  peak : ℤ
  maxima_sum : ℚ
  sample_index : List ℤ
  s_array_index : ℕ
  m_array_index : ℕ
  threshold_crossed : Bool
  peak_detected : Bool
  first_peak_detect : Bool
  start_sample_count_flag : Bool
  sample_sum : ℤ
  deriving DecidableEq

/-- `ECGRespirationAlgorithm.__init__`. -/
def QrsState.init : QrsState where
  maxd := 0
  qrs_b4_buffer_ptr := 0
  qrs_threshold_old := 0
  qrs_threshold_new := 0
  first_peak_detected := false
  heart_rate := 0
  qrs_samples := List.replicate 5 0
  prev_data := List.replicate 32 0
  sample_count := 0
  nopeak_count := 0
  maxima_search := 0
  peak := 0
  maxima_sum := 0
  sample_index := List.replicate 6 0
  s_array_index := 0
  m_array_index := 0
  threshold_crossed := false
  peak_detected := false
  first_peak_detect := false
  start_sample_count_flag := false
  sample_sum := 0

/-- `reset_variables`. -/
def reset_variables (s : QrsState) : QrsState :=
  { s with
    sample_count := 0
    s_array_index := 0
    m_array_index := 0
    maxima_sum := 0
    sample_index := List.replicate 6 0
    start_sample_count_flag := false
    peak_detected := false
    sample_sum := 0
    first_peak_detect := false
    nopeak_count := 0
    heart_rate := 0 }

/-- The statements of `calculate_heart_rate` up to (but excluding) its final
`self.reset_variables()` call: lines 280-286 of `heartrate_algorithm.py`.
`MAX_PEAK_TO_SEARCH = 4`, `SAMPLING_RATE = 125`; `/` is float division,
`int(...)` truncates. -/
def calculate_heart_rate_core (s : QrsState) : QrsState :=
  let sample_sum_avg : ℚ := qdiv (s.sample_sum : ℚ) ((4 - 1 : ℤ) : ℚ)
  let hr : ℚ := pymin (qdiv ((60 * 125 : ℤ) : ℚ) sample_sum_avg) 250
  let ms : ℚ := qdiv s.maxima_sum 4
  let max_value : ℤ := pytrunc ms
  let ms2 : ℚ := qdiv (qmul (max_value : ℚ) 7) 10
  { s with heart_rate := hr, maxima_sum := ms2, qrs_threshold_new := pytrunc ms2 }

/-- `calculate_heart_rate` (the whole method, ending in `reset_variables`). -/
def calculate_heart_rate (s : QrsState) : QrsState :=
  reset_variables (calculate_heart_rate_core s)

/-- `handle_no_peak`. -/
def handle_no_peak (s : QrsState) : QrsState :=
  let s := { s with sample_count := s.sample_count + 1,
                    nopeak_count := s.nopeak_count + 1 }
  if s.nopeak_count > 3 * 125 then reset_variables s else s

/-- `QRS_check_sample_crossing_threshold`. -/
def QRS_check_sample_crossing_threshold (s : QrsState) (scaled_result : ℤ) :
    QrsState :=
  if s.threshold_crossed then
    let s := { s with sample_count := s.sample_count + 1,
                      maxima_search := s.maxima_search + 1 }
    let s := if scaled_result > s.peak then { s with peak := scaled_result } else s
    if s.maxima_search ≥ 50 then
      { s with maxima_sum := qadd s.maxima_sum (s.peak : ℚ),
               maxima_search := 0,
               threshold_crossed := false,
               peak_detected := true }
    else s
  else if s.peak_detected then
    let s := { s with sample_count := s.sample_count + 1,
                      nopeak_count := s.nopeak_count + 1 }
    let s := if s.nopeak_count ≥ 30 then
        { s with nopeak_count := 0, peak_detected := false }
      else s
    if s.m_array_index = 4 then calculate_heart_rate s else s
  else if scaled_result > s.qrs_threshold_new then
    let s := { s with start_sample_count_flag := true,
                      sample_count := s.sample_count + 1,
                      m_array_index := s.m_array_index + 1,
                      threshold_crossed := true,
                      peak := scaled_result }
    let s := { s with sample_index := s.sample_index.set s.s_array_index s.sample_count }
    let s := if s.s_array_index ≥ 1 then
        { s with sample_sum := s.sample_sum +
            (s.sample_index.getD s.s_array_index 0 -
             s.sample_index.getD (s.s_array_index - 1) 0) }
      else s
    { s with s_array_index := s.s_array_index + 1 }
  else if scaled_result < s.qrs_threshold_new ∧ s.start_sample_count_flag then
    handle_no_peak s
  else
    let s := { s with nopeak_count := s.nopeak_count + 1 }
    if s.nopeak_count > 3 * 125 then reset_variables s else s

/-- `QRS_process_buffer`.  `qrs_samples[-2]` and `[-1]` are positions 3 and 4
of the 5-slot pipeline; `TWO_SEC_SAMPLES = 250`; `(self.max * 7) // 10` is
floor division of non-negative ints. -/
def QRS_process_buffer (s : QrsState) : QrsState :=
  let prev := s.qrs_samples.getD 3 0
  let next := s.qrs_samples.getD 4 0
  let scaled_result : ℤ := |next - prev|
  let s := if scaled_result > s.maxd then { s with maxd := scaled_result } else s
  let s := { s with qrs_b4_buffer_ptr := s.qrs_b4_buffer_ptr + 1 }
  let s := if s.qrs_b4_buffer_ptr = 250 then
      let thr := Int.fdiv (s.maxd * 7) 10
      { s with qrs_threshold_old := thr,
               qrs_threshold_new := thr,
               first_peak_detected := true,
               maxd := 0,
               qrs_b4_buffer_ptr := 0 }
    else s
  if s.first_peak_detected then QRS_check_sample_crossing_threshold s scaled_result
  else s

/-- `QRS_algorithm_interface`.  The incoming sample is stored into the
`np.int16` array `prev_data` (hence wraps); `int(np.mean(prev_data))`
truncates the mean of the 32 entries toward zero. -/
def QRS_algorithm_interface (s : QrsState) (curr_sample : ℤ) : QrsState :=
  let pd := int16wrap curr_sample :: s.prev_data.take 31
  let mac : ℚ := qdiv (pd.sum : ℚ) 32
  let cs : ℤ := pytrunc mac
  let s := { s with prev_data := pd, qrs_samples := cs :: s.qrs_samples.take 4 }
  QRS_process_buffer s

/-! ## spo2_algorithm.py -/

/-- `uch_spo2_table`, the fixed 183-entry SpO2 calibration table. -/
def uch_spo2_table : List ℕ := [
  95, 95, 95, 96, 96, 96, 97, 97, 97, 97, 97, 98, 98, 98, 98, 98, 99, 99, 99, 99,
  99, 99, 99, 99, 100, 100, 100, 100, 100, 100, 100, 100, 100, 100, 100, 100, 100, 100, 100, 100,
  100, 100, 100, 100, 99, 99, 99, 99, 99, 99, 99, 99, 98, 98, 98, 98, 98, 98, 97, 97,
  97, 97, 96, 96, 96, 96, 95, 95, 95, 94, 94, 94, 93, 93, 93, 92, 92, 92, 91, 91,
  90, 90, 89, 89, 89, 88, 88, 87, 87, 86, 86, 85, 85, 84, 84, 83, 82, 82, 81, 81,
  80, 80, 79, 78, 78, 77, 76, 76, 75, 74, 74, 73, 72, 72, 71, 70, 69, 69, 68, 67,
  66, 66, 65, 64, 63, 62, 62, 61, 60, 59, 58, 57, 56, 56, 55, 54, 53, 52, 51, 50,
  49, 48, 47, 46, 45, 44, 43, 42, 41, 40, 39, 38, 37, 36, 35, 34, 33, 31, 30, 29,
  28, 27, 26, 25, 23, 22, 21, 20, 19, 17, 16, 15, 14, 12, 11, 10, 9, 7, 6, 5,
  3, 2, 1]

/-- One step of the in-place trailing 4-point moving average: the source's
`an_x[i] = np.mean(an_x[i:i + MA4_SIZE])` with `MA4_SIZE = 4`. -/
def ma4step (x : List ℚ) (i : ℕ) : List ℚ :=
  x.set i (qmean ((x.drop i).take 4))

/-- The in-place smoothing loop `for i in range(BUFFER_SIZE - MA4_SIZE)` of
`estimate_spo2`. -/
def movingAvg4 (x : List ℚ) : List ℚ :=
  (List.range (x.length - 4)).foldl ma4step x

/-- The valley scan of `estimate_spo2`:
`for i in range(1, BUFFER_SIZE - 1)` collect `i` when `an_x[i] < -n_th1`
and `an_x[i]` is strictly below both neighbors. -/
def valleyLocs (x : List ℚ) (n : ℕ) (th : ℚ) : List ℕ :=
  (List.range n).filter fun i => decide (1 ≤ i ∧ i < n - 1 ∧
    x.getD i 0 < -th ∧ x.getD i 0 < x.getD (i - 1) 0 ∧ x.getD i 0 < x.getD (i + 1) 0)

/-- `np.diff(locs).sum()`: sum of gaps between consecutive entries. -/
def diffsSum (l : List ℕ) : ℤ :=
  (List.zipWith (fun a b => (a : ℤ) - (b : ℤ)) l.tail l).sum

/-- Ascending insertion of one element, for modelling Python's `sort()`. -/
def insertAsc (a : ℚ) : List ℚ → List ℚ
  | [] => [a]
  | b :: t => if a ≤ b then a :: b :: t else b :: insertAsc a t

/-- Ascending sort (extensionally the sorted list Python's `sort()` yields,
since ℚ is totally ordered). -/
def sortAsc (l : List ℚ) : List ℚ := l.foldr insertAsc []

/-- The ratio-collection loop of `estimate_spo2` (`for k in range(1, n_npks)`):
over the raw IR and RED windows restricted to `[locs[k-1], locs[k])`, compute
the AC/DC quotients and keep `100 * nume / denom` whenever `denom > 0`.
(The source preallocates `an_ratio = np.zeros(200)` and counts entries; a
grown list is equivalent since at most 98 valleys exist in a window.) -/
def collectRatios (ir red : List ℚ) (n : ℕ) (locs : List ℕ) : List ℚ :=
  ((List.range locs.length).drop 1).foldl (fun acc k =>
    if locs.getD k 0 < n then
      let a := locs.getD (k - 1) 0
      let b := locs.getD k 0
      let sx := (ir.drop a).take (b - a)
      let sy := (red.drop a).take (b - a)
      let n_x_dc_max := listMax sx
      let n_y_dc_max := listMax sy
      let n_x_ac := qsub n_x_dc_max (qmean sx)
      let n_y_ac := qsub n_y_dc_max (qmean sy)
      let n_nume := qmul n_y_ac n_x_dc_max
      let n_denom := qmul n_x_ac n_y_dc_max
      if n_denom > 0 then acc ++ [qdiv (qmul 100 n_nume) n_denom] else acc
    else acc) []

/-- The DC-removed, negated, smoothed IR signal of `estimate_spo2`
(`an_x = -1 * (buffer - mean)`, then the in-place 4-point moving average). -/
def spo2Smoothed (ir : List ℚ) : List ℚ :=
  movingAvg4 (ir.map fun v => qmul (-1) (qsub v (qmean ir)))

/-- The dynamic valley threshold `n_th1 = max(30, min(mean |an_x|, 60))`. -/
def spo2Threshold (ir : List ℚ) : ℚ :=
  pymax 30 (pymin (qmean ((spo2Smoothed ir).map fun v => qabs v)) 60)

/-- The valley locations `an_ir_valley_locs` computed by `estimate_spo2`. -/
def spo2Valleys (ir : List ℚ) : List ℕ :=
  valleyLocs (spo2Smoothed ir) ir.length (spo2Threshold ir)

/-- The ratio list `an_ratio[:n_i_ratio_count]` computed by `estimate_spo2`. -/
def spo2Ratios (ir red : List ℚ) : List ℚ :=
  collectRatios ir red ir.length (spo2Valleys ir)

/-- The truncated median ratio index `n_ratio_average` of `estimate_spo2`:
sort the collected ratios ascending, take entry `count // 2` (Nat division),
truncate toward zero with `int(...)`. -/
def spo2RatioIndex (ir red : List ℚ) : ℤ :=
  pytrunc ((sortAsc (spo2Ratios ir red)).getD ((spo2Ratios ir red).length / 2) 0)

/-- `estimate_spo2(pun_ir_buffer, pun_red_buffer)`.  Returns
`(SpO2 table entry or None, heart rate or None)`; the heart-rate slot is
`None` exactly on the empty-buffer early return (otherwise it carries the
valley-based estimate, `-999` when fewer than two valleys were found). -/
def estimate_spo2 (ir red : List ℚ) : Option ℕ × Option ℚ :=
  if ir.length = 0 ∨ red.length = 0 then (none, none)
  else
    let locs := spo2Valleys ir
    let n_npks := locs.length
    let n_peak_interval_sum : ℤ := if n_npks ≥ 2 then diffsSum locs else 0
    let pn_heart_rate : ℚ :=
      if n_npks ≥ 2 then qdiv ((60 * 25 : ℤ) : ℚ) (n_peak_interval_sum : ℚ) else -999
    let ratios := spo2Ratios ir red
    let pn_spo2 : Option ℕ :=
      if ratios.length > 0 then
        let r : ℤ := spo2RatioIndex ir red
        if 2 < r ∧ r < 183 then some (uch_spo2_table.getD r.toNat 0) else none
      else none
    (pn_spo2, some pn_heart_rate)

/-! ## process_data.py -/

/-- `adc_to_voltage(adc_value, resolution_bits)`: millivolts from an ADC
reading (`v_ref = 1.8`). -/
def adc_to_voltage (adc_value : ℕ) (resolution_bits : ℕ) : ℚ :=
  let v_ref : ℚ := mkRat 9 5
  let max_adc_value : ℕ := 2 ^ resolution_bits - 1
  qmul (qmul (qdiv (adc_value : ℚ) (max_adc_value : ℚ)) v_ref) 1000

/-- `ui.resolution_bits` as configured by the GUI for the default front end
(the spec's end-to-end scenario fixes 18). -/
def resolution_bits : ℕ := 18

/-- The outward-visible effects of one `process_data` call:
`sample` is the decode of a completed frame (the raw triplet whose
millivolt/IR projection feeds `ui.add_data` and the rolling windows),
`hrEmit` is `ui.heart_rate_signal.emit(str(int(hr)))`, and `spo2Emit` is
`ui.spo2_update_signal.emit` (`none` rendering as "SpO2: N/A"). -/
inductive PDEvent where
  | sample (ecg ir red : ℕ)
  | hrEmit (v : ℤ)
  | spo2Emit (v : Option ℕ)
  deriving DecidableEq

/-- The module-level mutable state of `process_data.py`:
the packet state machine registers, the rolling sample lists and the owned
`ECGRespirationAlgorithm` instance.  `heart_rate` starts as `None`. -/
structure PDState where
  pc_rx_state : ℕ
  CES_Pkt_Pos_Counter : ℕ
  CES_Data_Counter : ℕ
  CES_Pkt_Len : ℕ
  CES_Pkt_PktType : ℕ
  CES_Pkt_Data_Counter : List ℕ
  ecg_value : ℕ
  ir_value : ℕ
  red_value : ℕ
  ecg_mV : ℚ
  ecg_samples : List ℚ
  ir_samples : List ℕ
  red_samples : List ℕ
  heart_rate : Option ℚ
  ecg_processor : QrsState
  deriving DecidableEq

/-- The module state right after import (all counters zero, empty lists,
state `CESState_Init = 0`, payload buffer `[0, 0, 0, 0, 0, 0]`). -/
def PDState.init : PDState where
  pc_rx_state := 0
  CES_Pkt_Pos_Counter := 0
  CES_Data_Counter := 0
  CES_Pkt_Len := 0
  CES_Pkt_PktType := 0
  CES_Pkt_Data_Counter := List.replicate 6 0
  ecg_value := 0
  ir_value := 0
  red_value := 0
  ecg_mV := 0
  ecg_samples := []
  ir_samples := []
  red_samples := []
  heart_rate := none
  ecg_processor := QrsState.init

/-- `CES_Pkt_Data_Counter[0] | (CES_Pkt_Data_Counter[1] << 8)`. -/
def decoded_ecg (s : PDState) : ℕ :=
  s.CES_Pkt_Data_Counter.getD 0 0 ||| (s.CES_Pkt_Data_Counter.getD 1 0 <<< 8)

/-- `CES_Pkt_Data_Counter[2] | (CES_Pkt_Data_Counter[3] << 8)`. -/
def decoded_ir (s : PDState) : ℕ :=
  s.CES_Pkt_Data_Counter.getD 2 0 ||| (s.CES_Pkt_Data_Counter.getD 3 0 <<< 8)

/-- `CES_Pkt_Data_Counter[4] | (CES_Pkt_Data_Counter[5] << 8)`. -/
def decoded_red (s : PDState) : ℕ :=
  s.CES_Pkt_Data_Counter.getD 4 0 ||| (s.CES_Pkt_Data_Counter.getD 5 0 <<< 8)

/-- Appending one value to a rolling window with `pop(0)` once it exceeds
`BUFFER_SIZE = 100`. -/
def pushWindow (l : List ℕ) (v : ℕ) : List ℕ :=
  let l := l ++ [v]
  if l.length > 100 then l.drop 1 else l

/-- The body of the stop-byte branch of `process_data` (lines 130-161):
decode the triplet, convert to millivolts, run the QRS algorithm on the raw
ECG value, append to the rolling windows, and once both windows hold
`BUFFER_SIZE` samples run `estimate_spo2`, emit the heart rate when it lies
in `[60, 140]` and emit the SpO2 text.  (`ui.record_data` touches no module
state and is not modelled; the source appends `ecg_mV` to `ecg_samples`
twice, once before `ui.add_data` and once after.) -/
def frame_complete (s : PDState) : PDState × List PDEvent :=
  let ecg := decoded_ecg s
  let ir := decoded_ir s
  let red := decoded_red s
  let emv := adc_to_voltage ecg resolution_bits
  let proc := QRS_algorithm_interface s.ecg_processor (ecg : ℤ)
  let irs := pushWindow s.ir_samples ir
  let reds := pushWindow s.red_samples red
  let base := { s with
    ecg_value := ecg, ir_value := ir, red_value := red, ecg_mV := emv,
    ecg_samples := s.ecg_samples ++ [emv, emv],
    ir_samples := irs, red_samples := reds,
    heart_rate := some proc.heart_rate, ecg_processor := proc }
  if irs.length ≥ 100 ∧ reds.length ≥ 100 then
    let res := estimate_spo2
      ((irs.drop (irs.length - 100)).map (fun (v : ℕ) => (v : ℚ)))
      ((reds.drop (reds.length - 100)).map (fun (v : ℕ) => (v : ℚ)))
    let hrEvs : List PDEvent :=
      match res.2 with
      | some h => if 60 ≤ h ∧ h ≤ 140 then [.hrEmit (pytrunc h)] else []
      | none => []
    ({ base with heart_rate := res.2 },
      [.sample ecg ir red] ++ hrEvs ++ [.spo2Emit res.1])
  else
    (base, [.sample ecg ir red])

/-- `process_data(rx_char, ui)`: one byte through the packet state machine.
States: `0 = Init`, `1 = SOF1_Found`, `2 = SOF2_Found`, `3 = PktLen_Found`;
`CES_CMDIF_PKT_OVERHEAD = 5`.  Returns the new module state and the emitted
UI events. -/
def feed (s : PDState) (rx : ℕ) : PDState × List PDEvent :=
  if s.pc_rx_state = 0 then
    (if rx = 0x0A then { s with pc_rx_state := 1 } else s, [])
  else if s.pc_rx_state = 1 then
    (if rx = 0xFA then { s with pc_rx_state := 2 }
     else { s with pc_rx_state := 0 }, [])
  else if s.pc_rx_state = 2 then
    ({ s with pc_rx_state := 3, CES_Pkt_Len := rx,
              CES_Pkt_Pos_Counter := 2, CES_Data_Counter := 0 }, [])
  else
    let s := { s with CES_Pkt_Pos_Counter := s.CES_Pkt_Pos_Counter + 1 }
    if s.CES_Pkt_Pos_Counter < 5 then
      if s.CES_Pkt_Pos_Counter = 3 then
        ({ s with CES_Pkt_Len := (rx <<< 8) ||| s.CES_Pkt_Len }, [])
      else if s.CES_Pkt_Pos_Counter = 4 then
        ({ s with CES_Pkt_PktType := rx }, [])
      else (s, [])
    else if 5 ≤ s.CES_Pkt_Pos_Counter ∧
        s.CES_Pkt_Pos_Counter < 5 + s.CES_Pkt_Len + 1 then
      if s.CES_Pkt_PktType = 2 ∧ s.CES_Data_Counter < 6 then
        ({ s with
            CES_Pkt_Data_Counter := s.CES_Pkt_Data_Counter.set s.CES_Data_Counter rx,
            CES_Data_Counter := s.CES_Data_Counter + 1 }, [])
      else (s, [])
    else
      if rx = 0x0B then
        let r := frame_complete s
        ({ r.1 with pc_rx_state := 0, CES_Data_Counter := 0 }, r.2)
      else
        ({ s with pc_rx_state := 0 }, [])

/-- Feed a byte sequence one byte at a time, accumulating emitted events. -/
def feedMany (s : PDState) : List ℕ → PDState × List PDEvent
  | [] => (s, [])
  | b :: t =>
    let r := feed s b
    let rest := feedMany r.1 t
    (rest.1, r.2 ++ rest.2)

/-! ## Concrete scenarios used by the theorems below -/

/-- A valid 13-byte vitals frame for the 16-bit triplet `(ecg, ir, red)`:
start bytes, length field 6 (little endian), type 2, the six little-endian
payload bytes, one filler byte, and the stop byte. -/
def encodeFrame (ecg ir red : ℕ) : List ℕ :=
  [0x0A, 0xFA, 0x06, 0x00, 0x02,
   ecg % 256, ecg / 256, ir % 256, ir / 256, red % 256, red / 256, 0, 0x0B]

/-- Test signal shape: two asymmetric dips (around indices 39 and 59) whose
smoothed forms have strict minima, plus one balancing bump at index 10 that
makes the mean exactly zero. -/
def aVal : ℕ → ℤ := fun i =>
  if i = 10 then 1180
  else if i = 37 then -50 else if i = 38 then -120 else if i = 39 then -200
  else if i = 40 then -130 else if i = 41 then -70 else if i = 42 then -20
  else if i = 57 then -50 else if i = 58 then -120 else if i = 59 then -200
  else if i = 60 then -130 else if i = 61 then -70 else if i = 62 then -20
  else 0

/-- IR test sample `i`: `10000 - aVal i` (a valid unsigned 16-bit value). -/
def irVal (i : ℕ) : ℕ := (10000 - aVal i).toNat

/-- The IR test window (100 samples) as rationals. -/
def irBufQ : List ℚ := (List.range 100).map fun i => (irVal i : ℚ)

/-- The RED test window: 100 constant samples of 500. -/
def redBufQ : List ℚ := List.replicate 100 (500 : ℚ)

/-- The `i`-th wire frame of the test feed: a valid frame with declared
length 5 (the decoder then accepts exactly 6 payload bytes and a stop byte),
carrying `ecg = 0`, `ir = irVal i`, `red = 500 = 0x01F4`. -/
def frameFor (i : ℕ) : List ℕ :=
  [0x0A, 0xFA, 0x05, 0x00, 0x02,
   0, 0, irVal i % 256, irVal i / 256, 0xF4, 0x01, 0x0B]

/-- The first `m` test frames, concatenated. -/
def frames (m : ℕ) : List ℕ := (List.range m).flatMap frameFor

/-- The expected decoded-sample events of the first `m` test frames. -/
def sampleEvents (m : ℕ) : List PDEvent :=
  (List.range m).map fun i => .sample 0 (irVal i) 500

/-- The test frames for sample indices `a, a+1, …, a+k-1`, concatenated. -/
def framesFrom (a k : ℕ) : List ℕ :=
  ((List.range k).map (fun j => a + j)).flatMap frameFor

/-- The decoded-sample events of the test frames `a, …, a+k-1`. -/
def eventsFrom (a k : ℕ) : List PDEvent :=
  ((List.range k).map (fun j => a + j)).map fun i => .sample 0 (irVal i) 500

/-- Recognizer for heart-rate emissions. -/
def isHrEmit : PDEvent → Bool
  | .hrEmit _ => true
  | _ => false

/-- A `QrsState` that differs from the initial one only in the 2-second
calibration window position: the detector state while it sits in silence
before calibration. -/
def preCal (p : ℕ) : QrsState := { QrsState.init with qrs_b4_buffer_ptr := p }

/-- A calibrated silent detector state: threshold 0 (from a flat signal),
window position `p`, `n` consecutive no-peak samples counted. -/
def calState (p : ℕ) (n : ℤ) : QrsState :=
  { QrsState.init with first_peak_detected := true,
                       qrs_b4_buffer_ptr := p, nopeak_count := n }

/-- One QRS update on a constant-zero input sample. -/
def qrsStep (s : QrsState) : QrsState := QRS_algorithm_interface s 0

/-- The pipeline state after the first `i` test frames (`1 ≤ i ≤ 99`):
the state machine rests after a completed frame, the windows hold the first
`i` test samples, and the QRS detector has consumed `i` zero-valued ECG
samples. -/
def frameState (i : ℕ) : PDState where
  pc_rx_state := 0
  CES_Pkt_Pos_Counter := 11
  CES_Data_Counter := 0
  CES_Pkt_Len := 5
  CES_Pkt_PktType := 2
  CES_Pkt_Data_Counter := [0, 0, irVal (i - 1) % 256, irVal (i - 1) / 256, 0xF4, 0x01]
  ecg_value := 0
  ir_value := irVal (i - 1)
  red_value := 500
  ecg_mV := 0
  ecg_samples := List.replicate (2 * i) 0
  ir_samples := (List.range i).map irVal
  red_samples := List.replicate i 500
  heart_rate := some 0
  ecg_processor := preCal i

/-- A pipeline state holding 99 buffered test samples with the 100th staged
in the payload buffer — the state in which completing one more frame runs
the SpO2 estimator. -/
def stagedState : PDState :=
  { PDState.init with
      ir_samples := (List.range 99).map irVal,
      red_samples := List.replicate 99 500,
      CES_Pkt_Data_Counter := [0, 0, 16, 39, 0xF4, 0x01] }

/-- A detector state with four latched peaks and a 30-sample interval sum,
about to complete a detection cycle. -/
def cycleState : QrsState :=
  { QrsState.init with first_peak_detected := true, peak_detected := true,
                       m_array_index := 4, s_array_index := 4,
                       sample_sum := 30, sample_count := 140,
                       qrs_threshold_new := 10 }

/-!
# Theorems

### Correspondence of the computable arithmetic with the standard operations
-/

@[simp] theorem qadd_eq (a b : ℚ) : qadd a b = a + b := (Rat.add_def' a b).symm

@[simp] theorem qsub_eq (a b : ℚ) : qsub a b = a - b := (Rat.sub_def' a b).symm

@[simp] theorem qmul_eq (a b : ℚ) : qmul a b = a * b := by
  rw [qmul, Rat.mul_def, Rat.normalize_eq_mkRat]

@[simp] theorem qinv_eq (a : ℚ) : qinv a = a⁻¹ := (Rat.inv_def a).symm

@[simp] theorem qdiv_eq (a b : ℚ) : qdiv a b = a / b := by
  rw [qdiv, qmul_eq, qinv_eq, div_eq_mul_inv]

@[simp] theorem qsum_eq (l : List ℚ) : qsum l = l.sum := by
  induction l with
  | nil => rfl
  | cons a t ih => simp [qsum, List.foldr] at ih ⊢; rw [ih]

@[simp] theorem pymax_eq (a b : ℚ) : pymax a b = max a b := by
  rw [pymax, max_def]

@[simp] theorem pymin_eq (a b : ℚ) : pymin a b = min a b := by
  rw [pymin, min_def]
  by_cases h1 : b ≤ a
  · by_cases h2 : a ≤ b
    · simp [h1, h2, le_antisymm h1 h2]
    · simp [h1, h2]
  · have h2 : a ≤ b := le_of_not_le h1
    simp [h1, h2]

@[simp] theorem qabs_eq (a : ℚ) : qabs a = |a| := by
  rw [qabs, pymax_eq, abs_eq_max_neg]

theorem qmean_eq (l : List ℚ) : qmean l = l.sum / (l.length : ℚ) := by
  rw [qmean, qdiv_eq, qsum_eq]

/-! ### Little-endian byte decoding -/

/-- Splitting a value into its low byte and remaining high part and
recombining with the decoder's `lo | (hi << 8)` is the identity. -/
theorem lor_lo_hi (x : ℕ) : (x % 256) ||| ((x / 256) <<< 8) = x := by
  apply Nat.eq_of_testBit_eq
  intro i
  have h256 : (256 : ℕ) = 2 ^ 8 := rfl
  rw [Nat.testBit_lor, Nat.testBit_shiftLeft, h256, Nat.testBit_mod_two_pow,
    ← Nat.shiftRight_eq_div_pow, Nat.testBit_shiftRight]
  rcases Nat.lt_or_ge i 8 with h | h
  · simp [h, Nat.not_le.2 h]
  · have he : 8 + (i - 8) = i := by omega
    simp [Nat.not_lt.2 h, Nat.le_of_lt_succ, h, he]

/-! ### C10 — empty input buffers -/

/-- C10: whenever the IR buffer or the RED buffer is empty, `estimate_spo2`
returns `(None, None)` through its early guard. -/
theorem estimate_spo2_empty_buffer (ir red : List ℚ) (h : ir = [] ∨ red = []) :
    estimate_spo2 ir red = (none, none) := by
  rcases h with h | h <;> subst h <;> simp [estimate_spo2]

/-- Witness for `estimate_spo2_empty_buffer` at `ir = []`, `red = [0]`. -/
theorem estimate_spo2_empty_buffer_witness :
    (([] : List ℚ) = [] ∨ ([0] : List ℚ) = []) ∧
      estimate_spo2 [] [0] = (none, none) :=
  ⟨Or.inl rfl, estimate_spo2_empty_buffer [] [0] (Or.inl rfl)⟩

/-! ### C1 — frame round-trip -/

/-- C1 counterexample: feeding the enumerated frame
`0x0A 0xFA 0x06 0x00 0x02 <6 payload bytes for (100, 2000, 3000)> 0x0B` to a
fresh decoder produces no decoded sample at all (the stop byte lands inside
the decoder's payload window, which spans `length + 1` positions, and the
machine is left waiting mid-frame in state `PktLen_Found`). -/
theorem roundtrip_as_enumerated_yields_no_sample :
    (feedMany PDState.init
        [0x0A, 0xFA, 0x06, 0x00, 0x02, 100, 0, 208, 7, 184, 11, 0x0B]).2 = [] ∧
    (feedMany PDState.init
        [0x0A, 0xFA, 0x06, 0x00, 0x02, 100, 0, 208, 7, 184, 11, 0x0B]).2 ≠
      [PDEvent.sample 100 2000 3000] ∧
    (feedMany PDState.init
        [0x0A, 0xFA, 0x06, 0x00, 0x02, 100, 0, 208, 7, 184, 11, 0x0B]).1.pc_rx_state
      = 3 := by
  decide

/-- C1 amended: with the length field 6 the decoder's payload window spans 7
positions, so the well-formed 13-byte frame carries one filler byte between
the six payload bytes and the stop byte; feeding it to a fresh decoder
yields exactly one decoded sample, equal to `(ecg, ir, red)`. -/
theorem roundtrip_with_filler_byte (ecg ir red : ℕ)
    (h1 : ecg < 65536) (h2 : ir < 65536) (h3 : red < 65536) :
    (feedMany PDState.init (encodeFrame ecg ir red)).2 =
      [PDEvent.sample ecg ir red] := by
  simp [encodeFrame, feedMany, feed, frame_complete, decoded_ecg, decoded_ir,
    decoded_red, pushWindow, PDState.init, List.replicate, lor_lo_hi]

/-- Witness for `roundtrip_with_filler_byte` at `(100, 2000, 3000)`. -/
theorem roundtrip_with_filler_byte_witness :
    (100 < 65536 ∧ 2000 < 65536 ∧ 3000 < 65536) ∧
      (feedMany PDState.init (encodeFrame 100 2000 3000)).2 =
        [PDEvent.sample 100 2000 3000] :=
  ⟨by decide, roundtrip_with_filler_byte 100 2000 3000
    (by decide) (by decide) (by decide)⟩

theorem feedMany_append (s : PDState) (a b : List ℕ) :
    feedMany s (a ++ b) =
      ((feedMany (feedMany s a).1 b).1,
        (feedMany s a).2 ++ (feedMany (feedMany s a).1 b).2) := by
  induction a generalizing s with
  | nil => simp [feedMany]
  | cons x t ih => simp [feedMany, ih, List.append_assoc]

/-- Parsing a fresh header (`0x0A`, `0xFA`, length byte) from any `Init`
state moves the machine to `PktLen_Found` and re-initialises the declared
length, the position counter (to 2) and the data counter (to 0); every
other field keeps its value. -/
theorem feed_header (s : PDState) (c : ℕ) (hs : s.pc_rx_state = 0) :
    feedMany s [0x0A, 0xFA, c] =
      ({ s with
         pc_rx_state := 3, CES_Pkt_Len := c,
         CES_Pkt_Pos_Counter := 2, CES_Data_Counter := 0 }, []) := by
  simp [feedMany, feed, hs]

/-- Parsing a full five-byte frame header from any `Init` state: the length
field is assembled little-endian and the packet type recorded. -/
theorem feed_header5 (s : PDState) (lenLo lenHi t : ℕ) (hs : s.pc_rx_state = 0) :
    feedMany s [0x0A, 0xFA, lenLo, lenHi, t] =
      ({ s with
        pc_rx_state := 3, CES_Pkt_Len := (lenHi <<< 8) ||| lenLo,
        CES_Pkt_Pos_Counter := 4, CES_Data_Counter := 0, CES_Pkt_PktType := t }, []) := by
  simp [feedMany, feed, hs]

/-- A byte inside the payload window of a frame whose packet type is not 2
only advances the position counter. -/
theorem feed_skip_payload (s : PDState) (b : ℕ) (hs : s.pc_rx_state = 3)
    (ht : ¬ s.CES_Pkt_PktType = 2) (h4 : 4 ≤ s.CES_Pkt_Pos_Counter)
    (hlt : s.CES_Pkt_Pos_Counter + 1 < 5 + s.CES_Pkt_Len + 1) :
    feed s b = ({ s with CES_Pkt_Pos_Counter := s.CES_Pkt_Pos_Counter + 1 }, []) := by
  simp only [feed]
  rw [if_neg (by simp [hs]), if_neg (by simp [hs]), if_neg (by simp [hs]),
    if_neg (by simp; omega), if_pos (by simp; omega), if_neg (by simp [ht])]

/-- Feeding a whole payload window to a non-type-2 frame parser only
advances the position counter; nothing is captured and nothing emitted. -/
theorem feedMany_skip_payload (bs : List ℕ) : ∀ s : PDState,
    s.pc_rx_state = 3 → ¬ s.CES_Pkt_PktType = 2 → 4 ≤ s.CES_Pkt_Pos_Counter →
    s.CES_Pkt_Pos_Counter + bs.length ≤ 5 + s.CES_Pkt_Len →
    feedMany s bs =
      ({ s with CES_Pkt_Pos_Counter := s.CES_Pkt_Pos_Counter + bs.length }, []) := by
  induction bs with
  | nil =>
    intro s _ _ _ _
    simp [feedMany]
  | cons b t ih =>
    intro s hs ht h4 hend
    simp only [List.length_cons] at hend
    have h1 : feed s b =
        ({ s with CES_Pkt_Pos_Counter := s.CES_Pkt_Pos_Counter + 1 }, []) :=
      feed_skip_payload s b hs ht h4 (by omega)
    have h2 := ih { s with CES_Pkt_Pos_Counter := s.CES_Pkt_Pos_Counter + 1 }
      (by simpa using hs) (by simpa using ht) (by simp; omega) (by simp; omega)
    have h3 : s.CES_Pkt_Pos_Counter + (t.length + 1) =
        s.CES_Pkt_Pos_Counter + 1 + t.length := by omega
    simp [feedMany, h1, h2, h3]

/-- A matching stop byte past the payload window completes the frame and
returns the machine to `Init` with the data counter zeroed. -/
theorem feed_stop (s : PDState) (hs : s.pc_rx_state = 3)
    (hpos : 5 + s.CES_Pkt_Len ≤ s.CES_Pkt_Pos_Counter) :
    feed s 0x0B =
      ({ (frame_complete
            { s with CES_Pkt_Pos_Counter := s.CES_Pkt_Pos_Counter + 1 }).1 with
          pc_rx_state := 0, CES_Data_Counter := 0 },
        (frame_complete
          { s with CES_Pkt_Pos_Counter := s.CES_Pkt_Pos_Counter + 1 }).2) := by
  simp only [feed]
  rw [if_neg (by simp [hs]), if_neg (by simp [hs]), if_neg (by simp [hs]),
    if_neg (by simp; omega), if_neg (by simp; omega), if_pos True.intro]

/-- Completing a frame never touches the payload buffer, and always emits
the sample event decoded from it. -/
theorem frame_complete_fields (s : PDState) :
    (frame_complete s).1.CES_Pkt_Data_Counter = s.CES_Pkt_Data_Counter ∧
    PDEvent.sample (decoded_ecg s) (decoded_ir s) (decoded_red s) ∈
      (frame_complete s).2 := by
  refine ⟨?_, ?_⟩ <;> simp only [frame_complete] <;> split <;> simp

theorem list_length_six (l : List ℕ) (hl : l.length = 6) :
    ∃ a0 a1 a2 a3 a4 a5, l = [a0, a1, a2, a3, a4, a5] :=
  match l, hl with
  | [a0, a1, a2, a3, a4, a5], _ => ⟨a0, a1, a2, a3, a4, a5, rfl⟩

/-! ### C2 — frames of other packet types -/

/-- C2 counterexample: a well-formed frame of packet type 3 still emits a
sample event when its stop byte matches (the stop-byte branch never checks
the packet type), carrying the residual payload buffer — `(0, 0, 0)` on a
fresh decoder. -/
theorem nontype2_frame_still_emits :
    (feedMany PDState.init [0x0A, 0xFA, 0x00, 0x00, 3, 99, 0x0B]).2 =
      [PDEvent.sample 0 0 0] ∧
    (feedMany PDState.init [0x0A, 0xFA, 0x00, 0x00, 3, 99, 0x0B]).2 ≠ [] := by
  decide

/-- C2 amended: from any `Init`-state decoder, every well-formed frame
whose packet type byte is not 2 — any declared length, any payload filling
the decoder's `length + 1`-position window — is consumed in sync (the
decoder returns to `Init`), its payload bytes are not captured (the payload
buffer is unchanged), but the matching stop byte still emits a sample event
decoded from the residual payload-buffer contents (zeros on a fresh
decoder, or the bytes left by a previous type-2 frame). -/
theorem nontype2_frame_behavior (s : PDState) (lenLo lenHi t : ℕ)
    (payload : List ℕ) (hs : s.pc_rx_state = 0) (ht : ¬ t = 2)
    (hpl : payload.length = ((lenHi <<< 8) ||| lenLo) + 1) :
    (feedMany s ([0x0A, 0xFA, lenLo, lenHi, t] ++ payload ++ [0x0B])).1.pc_rx_state = 0 ∧
    (feedMany s ([0x0A, 0xFA, lenLo, lenHi, t] ++ payload ++ [0x0B])).1.CES_Pkt_Data_Counter = s.CES_Pkt_Data_Counter ∧
    PDEvent.sample (decoded_ecg s) (decoded_ir s) (decoded_red s) ∈
      (feedMany s ([0x0A, 0xFA, lenLo, lenHi, t] ++ payload ++ [0x0B])).2 := by
  have h5 := feed_header5 s lenLo lenHi t hs
  have hskip : feedMany
      { s with
        pc_rx_state := 3, CES_Pkt_Len := (lenHi <<< 8) ||| lenLo,
        CES_Pkt_Pos_Counter := 4, CES_Data_Counter := 0, CES_Pkt_PktType := t } payload =
      ({ s with
        pc_rx_state := 3, CES_Pkt_Len := (lenHi <<< 8) ||| lenLo,
        CES_Pkt_Pos_Counter := 4 + payload.length, CES_Data_Counter := 0,
        CES_Pkt_PktType := t }, []) := by
    have h := feedMany_skip_payload payload
      { s with
        pc_rx_state := 3, CES_Pkt_Len := (lenHi <<< 8) ||| lenLo,
        CES_Pkt_Pos_Counter := 4, CES_Data_Counter := 0, CES_Pkt_PktType := t } (by simp) (by simpa using ht) (by simp) (by simp; omega)
    simpa using h
  have hstop : feed
      { s with
        pc_rx_state := 3, CES_Pkt_Len := (lenHi <<< 8) ||| lenLo,
        CES_Pkt_Pos_Counter := 4 + payload.length, CES_Data_Counter := 0,
        CES_Pkt_PktType := t } 0x0B =
      ({ (frame_complete
            { s with
        pc_rx_state := 3, CES_Pkt_Len := (lenHi <<< 8) ||| lenLo,
        CES_Pkt_Pos_Counter := 4 + payload.length + 1, CES_Data_Counter := 0,
        CES_Pkt_PktType := t }).1 with
          pc_rx_state := 0, CES_Data_Counter := 0 },
        (frame_complete
          { s with
        pc_rx_state := 3, CES_Pkt_Len := (lenHi <<< 8) ||| lenLo,
        CES_Pkt_Pos_Counter := 4 + payload.length + 1, CES_Data_Counter := 0,
        CES_Pkt_PktType := t }).2) := by
    have h := feed_stop
      { s with
        pc_rx_state := 3, CES_Pkt_Len := (lenHi <<< 8) ||| lenLo,
        CES_Pkt_Pos_Counter := 4 + payload.length, CES_Data_Counter := 0,
        CES_Pkt_PktType := t } (by simp) (by simp; omega)
    simpa using h
  have hone : feedMany
      { s with
        pc_rx_state := 3, CES_Pkt_Len := (lenHi <<< 8) ||| lenLo,
        CES_Pkt_Pos_Counter := 4 + payload.length, CES_Data_Counter := 0,
        CES_Pkt_PktType := t } [0x0B] =
      ({ (frame_complete
            { s with
        pc_rx_state := 3, CES_Pkt_Len := (lenHi <<< 8) ||| lenLo,
        CES_Pkt_Pos_Counter := 4 + payload.length + 1, CES_Data_Counter := 0,
        CES_Pkt_PktType := t }).1 with
          pc_rx_state := 0, CES_Data_Counter := 0 },
        (frame_complete
          { s with
        pc_rx_state := 3, CES_Pkt_Len := (lenHi <<< 8) ||| lenLo,
        CES_Pkt_Pos_Counter := 4 + payload.length + 1, CES_Data_Counter := 0,
        CES_Pkt_PktType := t }).2) := by
    simp [feedMany, hstop]
  have key : feedMany s ([0x0A, 0xFA, lenLo, lenHi, t] ++ payload ++ [0x0B]) =
      ({ (frame_complete
            { s with
        pc_rx_state := 3, CES_Pkt_Len := (lenHi <<< 8) ||| lenLo,
        CES_Pkt_Pos_Counter := 4 + payload.length + 1, CES_Data_Counter := 0,
        CES_Pkt_PktType := t }).1 with
          pc_rx_state := 0, CES_Data_Counter := 0 },
        (frame_complete
          { s with
        pc_rx_state := 3, CES_Pkt_Len := (lenHi <<< 8) ||| lenLo,
        CES_Pkt_Pos_Counter := 4 + payload.length + 1, CES_Data_Counter := 0,
        CES_Pkt_PktType := t }).2) := by
    rw [feedMany_append, feedMany_append, h5]
    simp [hskip, hone]
  refine ⟨?_, ?_, ?_⟩
  · rw [key]
  · rw [key]
    exact (frame_complete_fields
      { s with
        pc_rx_state := 3, CES_Pkt_Len := (lenHi <<< 8) ||| lenLo,
        CES_Pkt_Pos_Counter := 4 + payload.length + 1, CES_Data_Counter := 0,
        CES_Pkt_PktType := t }).1
  · rw [key]
    have h := (frame_complete_fields
      { s with
        pc_rx_state := 3, CES_Pkt_Len := (lenHi <<< 8) ||| lenLo,
        CES_Pkt_Pos_Counter := 4 + payload.length + 1, CES_Data_Counter := 0,
        CES_Pkt_PktType := t }).2
    simpa [decoded_ecg, decoded_ir, decoded_red] using h

/-- Witness for `nontype2_frame_behavior`: a decoder that has just consumed
a type-2 frame (`frameState 1`) is fed a type-3 frame of declared length 2;
the emitted sample carries the previous type-2 frame's payload bytes. -/
theorem nontype2_frame_behavior_witness :
    ((frameState 1).pc_rx_state = 0 ∧ ¬ (3 : ℕ) = 2 ∧
      ([5, 6, 7] : List ℕ).length = (((0 : ℕ) <<< 8) ||| 2) + 1) ∧
    (feedMany (frameState 1)
        ([0x0A, 0xFA, 2, 0, 3] ++ [5, 6, 7] ++ [0x0B])).1.pc_rx_state = 0 ∧
    (feedMany (frameState 1)
        ([0x0A, 0xFA, 2, 0, 3] ++ [5, 6, 7] ++ [0x0B])).1.CES_Pkt_Data_Counter
      = (frameState 1).CES_Pkt_Data_Counter ∧
    PDEvent.sample (decoded_ecg (frameState 1)) (decoded_ir (frameState 1))
        (decoded_red (frameState 1)) ∈
      (feedMany (frameState 1) ([0x0A, 0xFA, 2, 0, 3] ++ [5, 6, 7] ++ [0x0B])).2 :=
  ⟨⟨rfl, by decide, by decide⟩,
    nontype2_frame_behavior (frameState 1) 2 0 3 [5, 6, 7] rfl (by decide) (by decide)⟩

/-! ### C3 — malformed frames -/

/-- C3 counterexample: after a frame whose stop byte is wrong (here `0xFF`
closing a declared-length-0 type-2 frame), the decoder is back in `Init` and
emits nothing, but its position counter (6), data counter (1) and payload
buffer (`[170, 0, 0, 0, 0, 0]`) all differ from the freshly constructed
state, so the post-malformed state does not equal the post-construction
state. -/
theorem malformed_frame_state_not_fresh :
    (feedMany PDState.init [0x0A, 0xFA, 0x00, 0x00, 2, 170, 255]).2 = [] ∧
    (feedMany PDState.init [0x0A, 0xFA, 0x00, 0x00, 2, 170, 255]).1.pc_rx_state = 0 ∧
    (feedMany PDState.init [0x0A, 0xFA, 0x00, 0x00, 2, 170, 255]).1.CES_Pkt_Pos_Counter = 6 ∧
    (feedMany PDState.init [0x0A, 0xFA, 0x00, 0x00, 2, 170, 255]).1.CES_Data_Counter = 1 ∧
    (feedMany PDState.init [0x0A, 0xFA, 0x00, 0x00, 2, 170, 255]).1.CES_Pkt_Data_Counter
      = [170, 0, 0, 0, 0, 0] ∧
    (feedMany PDState.init [0x0A, 0xFA, 0x00, 0x00, 2, 170, 255]).1 ≠ PDState.init ∧
    PDState.init.CES_Pkt_Pos_Counter = 0 ∧ PDState.init.CES_Data_Counter = 0 := by
  decide

/-- C3 amended: for every decoder state — a wrong second start byte (in
state `SOF1_Found`) sends the decoder back to `Init` emitting nothing while
every other field (position counter, data counter, declared length, packet
type, payload buffer) retains its last value; a wrong byte at the stop
position (state `PktLen_Found`, past the payload window) does the same
except the position counter has advanced by one; the next frame's header
re-initialises the position counter (to 2), the data counter (to 0) and the
declared length; and from any `Init`-state decoder with its 6-byte payload
buffer a subsequent well-formed type-2 frame is decoded correctly, yielding
its sample `(ecg, ir, red)` and leaving the decoder in `Init`. -/
theorem malformed_frame_resync :
    (∀ (s : PDState) (b : ℕ), s.pc_rx_state = 1 → ¬ b = 0xFA →
        feed s b = ({ s with pc_rx_state := 0 }, [])) ∧
    (∀ (s : PDState) (b : ℕ), s.pc_rx_state = 3 →
        5 + s.CES_Pkt_Len + 1 ≤ s.CES_Pkt_Pos_Counter + 1 → ¬ b = 0x0B →
        feed s b =
          ({ s with
             pc_rx_state := 0,
             CES_Pkt_Pos_Counter := s.CES_Pkt_Pos_Counter + 1 }, [])) ∧
    (∀ (s : PDState) (c : ℕ), s.pc_rx_state = 0 →
        feedMany s [0x0A, 0xFA, c] =
          ({ s with
             pc_rx_state := 3, CES_Pkt_Len := c,
             CES_Pkt_Pos_Counter := 2, CES_Data_Counter := 0 }, [])) ∧
    (∀ (s : PDState) (ecg ir red : ℕ), s.pc_rx_state = 0 →
        s.CES_Pkt_Data_Counter.length = 6 →
        PDEvent.sample ecg ir red ∈ (feedMany s (encodeFrame ecg ir red)).2 ∧
        (feedMany s (encodeFrame ecg ir red)).1.pc_rx_state = 0) := by
  refine ⟨?_, ?_, ?_, ?_⟩
  · intro s b hs hb
    simp [feed, hs, hb]
  · intro s b hs hpos hb
    simp only [feed]
    rw [if_neg (by simp [hs]), if_neg (by simp [hs]), if_neg (by simp [hs]),
      if_neg (by simp; omega), if_neg (by simp; omega), if_neg (by simp [hb])]
  · exact fun s c hs => feed_header s c hs
  · intro s ecg ir red hs hl
    obtain ⟨a0, a1, a2, a3, a4, a5, hbuf⟩ := list_length_six _ hl
    have key : feedMany s (encodeFrame ecg ir red) =
        ({ (frame_complete
              { s with
            pc_rx_state := 3, CES_Pkt_Len := 6, CES_Pkt_Pos_Counter := 12,
            CES_Data_Counter := 6, CES_Pkt_PktType := 2,
            CES_Pkt_Data_Counter := [ecg % 256, ecg / 256, ir % 256, ir / 256,
              red % 256, red / 256] }).1 with
            pc_rx_state := 0, CES_Data_Counter := 0 },
          (frame_complete
            { s with
            pc_rx_state := 3, CES_Pkt_Len := 6, CES_Pkt_Pos_Counter := 12,
            CES_Data_Counter := 6, CES_Pkt_PktType := 2,
            CES_Pkt_Data_Counter := [ecg % 256, ecg / 256, ir % 256, ir / 256,
              red % 256, red / 256] }).2) := by
      simp [encodeFrame, feedMany, feed, hs, hbuf]
    refine ⟨?_, ?_⟩
    · rw [key]
      have h := (frame_complete_fields
        { s with
            pc_rx_state := 3, CES_Pkt_Len := 6, CES_Pkt_Pos_Counter := 12,
            CES_Data_Counter := 6, CES_Pkt_PktType := 2,
            CES_Pkt_Data_Counter := [ecg % 256, ecg / 256, ir % 256, ir / 256,
              red % 256, red / 256] }).2
      simpa [decoded_ecg, decoded_ir, decoded_red, lor_lo_hi] using h
    · rw [key]

/-! ### Properties of truncation toward zero -/

/-- On non-negative rationals, truncation toward zero is the floor. -/
theorem pytrunc_eq_floor (q : ℚ) (h : 0 ≤ q) : pytrunc q = ⌊q⌋ := by
  rw [pytrunc, Rat.floor_def,
    Int.tdiv_eq_ediv (Rat.num_nonneg.2 h) (Int.ofNat_nonneg q.den)]

/-- On non-positive rationals, truncation toward zero is the ceiling. -/
theorem pytrunc_eq_ceil (q : ℚ) (h : q ≤ 0) : pytrunc q = ⌈q⌉ := by
  have hn : 0 ≤ -q := neg_nonneg.2 h
  have : pytrunc (-q) = ⌊-q⌋ := pytrunc_eq_floor (-q) hn
  rw [pytrunc, Rat.neg_num, Rat.neg_den, Int.neg_tdiv] at this
  rw [pytrunc, ← neg_neg (q.num.tdiv q.den), this, ← Int.ceil_neg, neg_neg]

/-! ### C6 — heart-rate computation on a completed detection cycle -/

/-- C6: in a latched state with 4 recorded peaks (`m_array_index = 4`) and a
positive interval sum, the QRS step hands the state (with its interval sum
untouched) to `calculate_heart_rate`, and the heart-rate value that
computation produces is `min 250 (60 * 125 / (intervalSum / 3))`, hence
never exceeds 250. -/
theorem qrs_cycle_heart_rate (s : QrsState) (d : ℤ)
    (hc : s.threshold_crossed = false) (hp : s.peak_detected = true)
    (hm : s.m_array_index = 4) (hs : 0 < s.sample_sum) :
    QRS_check_sample_crossing_threshold s d =
      calculate_heart_rate
        (if 30 ≤ s.nopeak_count + 1
         then { s with sample_count := s.sample_count + 1, nopeak_count := 0,
                       peak_detected := false }
         else { s with sample_count := s.sample_count + 1,
                       nopeak_count := s.nopeak_count + 1 }) ∧
    ∀ u : QrsState, u.sample_sum = s.sample_sum →
      (calculate_heart_rate_core u).heart_rate
          = min 250 (60 * 125 / ((s.sample_sum : ℚ) / 3)) ∧
        (calculate_heart_rate_core u).heart_rate ≤ 250 := by
  constructor
  · rw [QRS_check_sample_crossing_threshold]
    rw [if_neg (by simp [hc]), if_pos hp]
    by_cases h30 : (30 : ℤ) ≤ s.nopeak_count + 1
    · simp only [h30, ge_iff_le, if_true, if_pos, hm]
    · simp only [h30, ge_iff_le, if_false]
      rw [if_pos hm]
  · intro u hu
    have hform : (calculate_heart_rate_core u).heart_rate
        = min 250 (60 * 125 / ((s.sample_sum : ℚ) / 3)) := by
      simp only [calculate_heart_rate_core, pymin_eq, qdiv_eq, qmul_eq, hu]
      rw [min_comm]
      norm_num
    exact ⟨hform, by rw [hform]; exact min_le_left _ _⟩

/-- Witness for `qrs_cycle_heart_rate` at `cycleState` (interval sum 30,
four latched peaks): the computed rate is `min 250 750 = 250`. -/
theorem qrs_cycle_heart_rate_witness :
    (cycleState.threshold_crossed = false ∧ cycleState.peak_detected = true ∧
      cycleState.m_array_index = 4 ∧ 0 < cycleState.sample_sum) ∧
    (QRS_check_sample_crossing_threshold cycleState 5 =
      calculate_heart_rate
        (if 30 ≤ cycleState.nopeak_count + 1
         then { cycleState with sample_count := cycleState.sample_count + 1,
                                nopeak_count := 0, peak_detected := false }
         else { cycleState with sample_count := cycleState.sample_count + 1,
                                nopeak_count := cycleState.nopeak_count + 1 }) ∧
      ∀ u : QrsState, u.sample_sum = cycleState.sample_sum →
        (calculate_heart_rate_core u).heart_rate
            = min 250 (60 * 125 / ((cycleState.sample_sum : ℚ) / 3)) ∧
          (calculate_heart_rate_core u).heart_rate ≤ 250) :=
  ⟨⟨rfl, rfl, rfl, by decide⟩,
    qrs_cycle_heart_rate cycleState 5 rfl rfl rfl (by decide)⟩

/-- Witness for `malformed_frame_resync`: a wrong second start byte 0 from
state `SOF1_Found`; a wrong stop byte 255 closing a declared-length-0 frame;
a header re-parse on a decoder with stale counters; and a full good type-2
frame for `(100, 2000, 3000)` parsed from a decoder left dirty by a
malformed frame. -/
theorem malformed_frame_resync_witness :
    (feed { PDState.init with pc_rx_state := 1 } 0 =
        ({ { PDState.init with pc_rx_state := 1 } with pc_rx_state := 0 }, [])) ∧
    (feed { PDState.init with pc_rx_state := 3, CES_Pkt_Pos_Counter := 6 } 255 =
        ({ { PDState.init with pc_rx_state := 3, CES_Pkt_Pos_Counter := 6 } with
            pc_rx_state := 0, CES_Pkt_Pos_Counter := 6 + 1 }, [])) ∧
    (feedMany { PDState.init with CES_Pkt_Pos_Counter := 6, CES_Data_Counter := 1 }
        [0x0A, 0xFA, 7] =
      ({ { PDState.init with CES_Pkt_Pos_Counter := 6, CES_Data_Counter := 1 } with
          pc_rx_state := 3, CES_Pkt_Len := 7, CES_Pkt_Pos_Counter := 2,
          CES_Data_Counter := 0 }, [])) ∧
    (PDEvent.sample 100 2000 3000 ∈
        (feedMany { PDState.init with
            CES_Pkt_Pos_Counter := 6, CES_Data_Counter := 1,
            CES_Pkt_Data_Counter := [170, 0, 0, 0, 0, 0] }
          (encodeFrame 100 2000 3000)).2 ∧
      (feedMany { PDState.init with
          CES_Pkt_Pos_Counter := 6, CES_Data_Counter := 1,
          CES_Pkt_Data_Counter := [170, 0, 0, 0, 0, 0] }
        (encodeFrame 100 2000 3000)).1.pc_rx_state = 0) :=
  ⟨malformed_frame_resync.1 _ 0 rfl (by decide),
   malformed_frame_resync.2.1 _ 255 rfl (by decide) (by decide),
   malformed_frame_resync.2.2.1 _ 7 rfl,
   malformed_frame_resync.2.2.2 _ 100 2000 3000 rfl (by decide)⟩

/-! ### C9 — the in-place 4-point moving average -/

theorem ma4step_length (x : List ℚ) (i : ℕ) : (ma4step x i).length = x.length := by
  simp [ma4step]

/-- Two lists of equal length that agree from position `n` on have the same
4-element slice at `n`. -/
theorem slice4_eq_of_agree (a b : List ℚ) (n : ℕ) (hlen : a.length = b.length)
    (h : ∀ j, n ≤ j → a.getD j 0 = b.getD j 0) :
    (a.drop n).take 4 = (b.drop n).take 4 := by
  apply List.ext_getElem?
  intro j
  by_cases hj : j < 4
  · rw [List.getElem?_take_of_lt hj, List.getElem?_take_of_lt hj,
      List.getElem?_drop, List.getElem?_drop]
    have hg := h (n + j) (Nat.le_add_right n j)
    by_cases hb : n + j < a.length
    · have hb' : n + j < b.length := hlen ▸ hb
      rw [List.getElem?_eq_getElem hb, List.getElem?_eq_getElem hb']
      simpa [List.getD_eq_getElem?_getD, List.getElem?_eq_getElem hb,
        List.getElem?_eq_getElem hb'] using hg
    · have hb' : ¬ n + j < b.length := by omega
      rw [List.getElem?_eq_none (by omega), List.getElem?_eq_none (by omega)]
  · rw [List.getElem?_eq_none, List.getElem?_eq_none] <;>
      · rw [List.length_take] ; omega

/-- Positions other than the one being written are unchanged by `ma4step`. -/
theorem ma4step_getD_ne (x : List ℚ) (i j : ℕ) (h : i ≠ j) :
    (ma4step x i).getD j 0 = x.getD j 0 := by
  simp [ma4step, List.getD_eq_getElem?_getD, List.getElem?_set_ne h]

/-- What the smoothing loop has computed after its first `n` iterations:
positions below `n` hold the 4-point window means of the original list
(each window reads only positions the loop has not yet overwritten), and
positions from `n` on are untouched. -/
theorem foldl_ma4_spec (x : List ℚ) :
    ∀ n, n ≤ x.length →
      ((List.range n).foldl ma4step x).length = x.length ∧
      (∀ j, j < n → ((List.range n).foldl ma4step x).getD j 0
          = qmean ((x.drop j).take 4)) ∧
      (∀ j, n ≤ j → ((List.range n).foldl ma4step x).getD j 0 = x.getD j 0) := by
  intro n
  induction n with
  | zero => exact fun _ => ⟨rfl, fun j hj => absurd hj (Nat.not_lt_zero j), fun _ _ => rfl⟩
  | succ m ih =>
    intro hm1
    obtain ⟨ihl, ihlt, ihge⟩ := ih (Nat.le_of_succ_le hm1)
    have hyfold : (List.range (m + 1)).foldl ma4step x =
        ma4step ((List.range m).foldl ma4step x) m := by
      rw [List.range_succ, List.foldl_append, List.foldl_cons, List.foldl_nil]
    have hslice : (((List.range m).foldl ma4step x).drop m).take 4 =
        (x.drop m).take 4 :=
      slice4_eq_of_agree _ x m ihl ihge
    refine ⟨by rw [hyfold, ma4step_length, ihl], ?_, ?_⟩
    · intro j hj
      rcases Nat.lt_or_ge j m with hjm | hjm
      · rw [hyfold, ma4step_getD_ne _ _ _ (by omega)]
        exact ihlt j hjm
      · have hjm' : j = m := by omega
        subst hjm'
        have hlt : j < ((List.range j).foldl ma4step x).length := by
          rw [ihl]; omega
        rw [hyfold]
        simp only [ma4step, List.getD_eq_getElem?_getD, List.getElem?_set_self hlt,
          Option.getD_some, hslice]
    · intro j hj
      rw [hyfold, ma4step_getD_ne _ _ _ (by omega)]
      exact ihge j (by omega)

/-- C9 counterexample: on the 5-sample signal `[0, 0, 0, 0, 100]`, position
1 is not among the last 3 samples and has a full 4-sample window with mean
25, yet the smoothing loop leaves it at its unsmoothed value 0 — the loop
stops 4 (not 3) positions before the end. -/
theorem moving_average_counterexample :
    movingAvg4 [0, 0, 0, 0, 100] = [0, 0, 0, 0, 100] ∧
    qmean ((([0, 0, 0, 0, 100] : List ℚ).drop 1).take 4) = 25 ∧
    (movingAvg4 [0, 0, 0, 0, 100]).getD 1 0 = 0 ∧ ((0 : ℚ) ≠ 25) := by
  decide

/-- C9 amended: the in-place trailing 4-point moving average overwrites
position `i` with the mean of the (original) samples `i .. i+3` exactly for
`i + 4 < length`, and keeps the *last 4* positions (not 3) at their
unsmoothed values. -/
theorem moving_average_skips_last_four (x : List ℚ) :
    (movingAvg4 x).length = x.length ∧
    (∀ i, i + 4 < x.length → (movingAvg4 x).getD i 0 = qmean ((x.drop i).take 4)) ∧
    (∀ i, x.length ≤ i + 4 → (movingAvg4 x).getD i 0 = x.getD i 0) := by
  obtain ⟨h1, h2, h3⟩ := foldl_ma4_spec x (x.length - 4) (by omega)
  exact ⟨h1, fun i hi => h2 i (by omega), fun i hi => h3 i (by omega)⟩

/-- Witness for `moving_average_skips_last_four` on `[1, 2, 3, 4, 5, 6]`:
position 0 is smoothed to the mean of `[1, 2, 3, 4]`, position 2 (4th from
the end) keeps its unsmoothed value. -/
theorem moving_average_skips_last_four_witness :
    (0 + 4 < ([1, 2, 3, 4, 5, 6] : List ℚ).length ∧
      (movingAvg4 [1, 2, 3, 4, 5, 6]).getD 0 0 =
        qmean ((([1, 2, 3, 4, 5, 6] : List ℚ).drop 0).take 4)) ∧
    (([1, 2, 3, 4, 5, 6] : List ℚ).length ≤ 2 + 4 ∧
      (movingAvg4 [1, 2, 3, 4, 5, 6]).getD 2 0 =
        ([1, 2, 3, 4, 5, 6] : List ℚ).getD 2 0) :=
  ⟨⟨by decide, (moving_average_skips_last_four [1, 2, 3, 4, 5, 6]).2.1 0 (by decide)⟩,
   ⟨by decide, (moving_average_skips_last_four [1, 2, 3, 4, 5, 6]).2.2 2 (by decide)⟩⟩

/-! ### C8 — the SpO2 lookup boundary -/

/-- C8: when `estimate_spo2` has collected at least one ratio, its SpO2
output is governed by the truncated median ratio index `r`: strictly inside
`(2, 183)` it returns the calibration-table entry at `r`; at `r = 2`, at
`r = 183`, and anywhere else outside that open interval it returns `None`. -/
theorem spo2_lookup_boundary (ir red : List ℚ)
    (h1 : ir ≠ []) (h2 : red ≠ []) (h3 : spo2Ratios ir red ≠ []) :
    ((2 < spo2RatioIndex ir red ∧ spo2RatioIndex ir red < 183) →
      (estimate_spo2 ir red).1 =
        some (uch_spo2_table.getD (spo2RatioIndex ir red).toNat 0)) ∧
    (¬(2 < spo2RatioIndex ir red ∧ spo2RatioIndex ir red < 183) →
      (estimate_spo2 ir red).1 = none) := by
  have hlen : ¬(ir.length = 0 ∨ red.length = 0) := by
    rw [List.length_eq_zero, List.length_eq_zero]
    exact fun h => h.elim h1 h2
  have hratios : (spo2Ratios ir red).length > 0 := List.length_pos.2 h3
  constructor <;> intro hr <;>
    simp only [estimate_spo2, hlen, if_false, hratios, if_true, hr, if_neg,
      not_false_eq_true, and_self]

/-- Witness for `spo2_lookup_boundary` on the concrete test windows: one
ratio (of value 0) is collected, the truncated median index is 0, outside
`(2, 183)`, so SpO2 is unavailable. -/
theorem spo2_lookup_boundary_witness :
    (irBufQ ≠ [] ∧ redBufQ ≠ [] ∧ spo2Ratios irBufQ redBufQ ≠ []) ∧
      (estimate_spo2 irBufQ redBufQ).1 = none := by
  have h1 : irBufQ ≠ [] := by decide
  have h2 : redBufQ ≠ [] := by decide
  have h3 : spo2Ratios irBufQ redBufQ ≠ [] := by decide
  exact ⟨⟨h1, h2, h3⟩,
    (spo2_lookup_boundary irBufQ redBufQ h1 h2 h3).2 (by decide)⟩

/-! ### C7 — FIR saturation -/

theorem qsum_cons (x : ℚ) (l : List ℚ) : qsum (x :: l) = x + qsum l := by
  rw [qsum, List.foldr_cons, qadd_eq]; rfl

/-- The zip-based multiply-accumulate of `ecg_filter_process` is the dot
product of the coefficient and tap sequences (missing positions read 0). -/
theorem zip_dot (as : List ℤ) (bs : List ℚ) :
    qsum (List.zipWith (fun (c : ℤ) (w : ℚ) => qmul (c : ℚ) w) as bs) =
      ∑ i ∈ Finset.range as.length, (as.getD i 0 : ℚ) * bs.getD i 0 := by
  induction as generalizing bs with
  | nil => simp [qsum]
  | cons a t ih =>
    cases bs with
    | nil => simp [qsum]
    | cons b u =>
      rw [List.zipWith_cons_cons, qsum_cons, qmul_eq, ih u, List.length_cons,
        Finset.sum_range_succ']
      simp [add_comm]

/-- `np.int16` does not change values already in the signed 16-bit range. -/
theorem int16wrap_id (z : ℤ) (h1 : -32768 ≤ z) (h2 : z ≤ 32767) :
    int16wrap z = z := by
  rw [int16wrap]; omega

/-- C7: for every 161-slot tap line, the FIR output is the dot product of
the fixed coefficients with the taps, truncated to an integer, clamped
(saturated, never wrapped) into `[-0x40000000, 0x3fffffff]`, then
arithmetically shifted right by 15; in particular a dot product above
`0x3fffffff` yields `0x3fffffff >> 15 = 32767` and one below `-0x40000000`
yields `-0x40000000 >> 15 = -32768`. -/
theorem fir_filter_saturates (wb : List ℚ) (hlen : wb.length = 161) :
    (ecg_filter_process wb =
      (max (min (pytrunc (∑ i ∈ Finset.range 161,
          (CoeffBuf_40Hz_LowPass.getD i 0 : ℚ) * wb.getD i 0)) 0x3fffffff)
        (-0x40000000)) >>> (15 : ℕ)) ∧
    ((0x3fffffff : ℚ) < ∑ i ∈ Finset.range 161,
        (CoeffBuf_40Hz_LowPass.getD i 0 : ℚ) * wb.getD i 0 →
      ecg_filter_process wb = 32767) ∧
    (∑ i ∈ Finset.range 161, (CoeffBuf_40Hz_LowPass.getD i 0 : ℚ) * wb.getD i 0
        < -(0x40000000 : ℚ) →
      ecg_filter_process wb = -32768) := by
  have hcoeff : CoeffBuf_40Hz_LowPass.length = 161 := by rfl
  have hdot : qsum (List.zipWith (fun (c : ℤ) (w : ℚ) => qmul (c : ℚ) w)
      CoeffBuf_40Hz_LowPass wb) =
        ∑ i ∈ Finset.range 161, (CoeffBuf_40Hz_LowPass.getD i 0 : ℚ) * wb.getD i 0 := by
    rw [zip_dot, hcoeff]
  set d : ℚ := ∑ i ∈ Finset.range 161,
    (CoeffBuf_40Hz_LowPass.getD i 0 : ℚ) * wb.getD i 0 with hd
  have hmain : ecg_filter_process wb =
      int16wrap ((max (min (pytrunc d) 0x3fffffff) (-0x40000000)) >>> (15 : ℕ)) := by
    rw [ecg_filter_process, hdot]
  have hshift : ∀ z : ℤ, z >>> (15 : ℕ) = z / 32768 := by
    intro z
    rw [Int.shiftRight_eq_div_pow]
    norm_num
  refine ⟨?_, ?_, ?_⟩
  · rw [hmain]
    apply int16wrap_id
    · rw [hshift]
      have h1 : (-0x40000000 : ℤ) ≤ max (min (pytrunc d) 0x3fffffff) (-0x40000000) :=
        le_max_right _ _
      have := Int.ediv_le_ediv (by norm_num : (0 : ℤ) < 32768) h1
      omega
    · rw [hshift]
      have h1 : max (min (pytrunc d) 0x3fffffff) (-0x40000000) ≤ 0x3fffffff :=
        max_le (min_le_right _ _) (by norm_num)
      have := Int.ediv_le_ediv (by norm_num : (0 : ℤ) < 32768) h1
      omega
  · intro hgt
    have hpos : (0 : ℚ) ≤ d := le_of_lt (lt_trans (by norm_num) hgt)
    have hfl : pytrunc d = ⌊d⌋ := pytrunc_eq_floor d hpos
    have hge : (0x3fffffff : ℤ) ≤ pytrunc d := by
      rw [hfl, Int.le_floor]
      push_cast
      exact le_of_lt hgt
    rw [hmain, min_eq_right hge, max_eq_left (by norm_num)]
    decide
  · intro hlt
    have hneg : d ≤ 0 := le_of_lt (lt_trans hlt (by norm_num))
    have hcl : pytrunc d = ⌈d⌉ := pytrunc_eq_ceil d hneg
    have hle : pytrunc d ≤ -0x40000000 := by
      rw [hcl, Int.ceil_le]
      push_cast
      exact le_of_lt hlt
    rw [hmain, min_eq_left (le_trans hle (by norm_num)), max_eq_right hle]
    decide

/-- Witness for `fir_filter_saturates` on the all-zero tap line. -/
theorem fir_filter_saturates_witness :
    (List.replicate 161 (0 : ℚ)).length = 161 ∧
      ecg_filter_process (List.replicate 161 0) =
        (max (min (pytrunc (∑ i ∈ Finset.range 161,
            (CoeffBuf_40Hz_LowPass.getD i 0 : ℚ) *
              (List.replicate 161 (0 : ℚ)).getD i 0)) 0x3fffffff)
          (-0x40000000)) >>> (15 : ℕ) :=
  ⟨by simp, (fir_filter_saturates (List.replicate 161 0) (by simp)).1⟩

/-! ### C4 — the silence reset after calibration -/

theorem int16wrap_zero : int16wrap 0 = 0 := by decide

theorem pytrunc_zero : pytrunc 0 = 0 := by decide

/-- One silent (constant-zero) sample before calibration only advances the
2-second window position. -/
theorem qrsStep_preCal (p : ℕ) (h : p + 1 ≠ 250) :
    qrsStep (preCal p) = preCal (p + 1) := by
  rw [qrsStep, QRS_algorithm_interface, QRS_process_buffer]
  simp only [preCal, QrsState.init, int16wrap_zero, List.replicate, List.take_cons,
    List.take_succ_cons, List.take_nil, List.sum_cons, List.sum_nil, List.getD_cons_succ,
    List.getD_cons_zero, pytrunc_zero]
  norm_num [qdiv_eq, pytrunc_zero, h]

/-- One silent sample on a calibrated silent detector advances the window
position (recalibrating to the same zero threshold when it wraps) and
counts one more no-peak sample, as long as the 375-sample limit is not yet
exceeded. -/
theorem qrsStep_calState (p : ℕ) (n : ℤ) (hn : ¬ n + 1 > 375) :
    qrsStep (calState p n) =
      calState (if p + 1 = 250 then 0 else p + 1) (n + 1) := by
  rw [qrsStep, QRS_algorithm_interface, QRS_process_buffer]
  by_cases hp : p + 1 = 250
  · simp only [calState, QrsState.init, int16wrap_zero, List.replicate, List.take_cons,
      List.take_succ_cons, List.take_nil, List.sum_cons, List.sum_nil,
      List.getD_cons_succ, List.getD_cons_zero, pytrunc_zero]
    norm_num [qdiv_eq, pytrunc_zero, hp, QRS_check_sample_crossing_threshold, hn]
  · simp only [calState, QrsState.init, int16wrap_zero, List.replicate, List.take_cons,
      List.take_succ_cons, List.take_nil, List.sum_cons, List.sum_nil,
      List.getD_cons_succ, List.getD_cons_zero, pytrunc_zero]
    norm_num [qdiv_eq, pytrunc_zero, hp, QRS_check_sample_crossing_threshold, hn]

/-- The detector stays in the pre-calibration silent family for the first
249 samples. -/
theorem qrs_silent_precal : ∀ m, m ≤ 249 →
    qrsStep^[m] QrsState.init = preCal m := by
  intro m
  induction m with
  | zero => intro _; rfl
  | succ k ih =>
    intro hk
    rw [Function.iterate_succ_apply', ih (by omega),
      qrsStep_preCal k (by omega)]

/-- The 250th silent sample calibrates the detector (threshold 0) and the
no-peak counter starts running. -/
theorem qrs_silent_calibrate : qrsStep^[250] QrsState.init = calState 0 1 := by
  rw [Function.iterate_succ_apply', qrs_silent_precal 249 (by omega)]
  decide

/-- The calibrated silent phase: after `250 + k` silent samples
(`k ≤ 374`), the window position cycles and the no-peak counter reads
`1 + k`. -/
theorem qrs_silent_phase2 : ∀ k, k ≤ 374 →
    qrsStep^[250 + k] QrsState.init = calState (k % 250) (1 + k) := by
  intro k
  induction k with
  | zero =>
    intro _
    rw [Nat.add_zero, qrs_silent_calibrate]
    norm_num
  | succ j ih =>
    intro hj
    rw [show 250 + (j + 1) = (250 + j) + 1 by omega, Function.iterate_succ_apply',
      ih (by omega), qrsStep_calState _ _ (by omega)]
    have harg : (if j % 250 + 1 = 250 then 0 else j % 250 + 1) = (j + 1) % 250 := by
      by_cases h : j % 250 + 1 = 250
      · rw [if_pos h]; omega
      · rw [if_neg h]; omega
    rw [harg, show (1 : ℤ) + (j : ℤ) + 1 = 1 + ((j + 1 : ℕ) : ℤ) by push_cast; ring]

/-- After 624 silent samples: window position 124, no-peak counter 375. -/
theorem qrs_silent_624 : qrsStep^[624] QrsState.init = calState 124 375 := by
  have h := qrs_silent_phase2 374 (by omega)
  rw [show (250 : ℕ) + 374 = 624 by norm_num] at h
  rw [h]
  norm_num

/-- C4: the code's silence reset does NOT return the detector to its
pre-calibration condition.  After 250 constant samples (which calibrate the
detector) and 375 more zero-derivative samples, `nopeak_count` exceeds 375
and `reset_variables` runs: every counter it touches is zeroed, but the
whole state differs from the freshly constructed one exactly in
`first_peak_detected = true` (the calibration gate, which `reset_variables`
never clears — it clears only the never-read `first_peak_detect`) and the
free-running window position.  The detector therefore stays calibrated. -/
theorem qrs_silence_reset_keeps_calibration :
    qrsStep^[625] QrsState.init =
      { QrsState.init with first_peak_detected := true, qrs_b4_buffer_ptr := 125 } ∧
    (qrsStep^[625] QrsState.init).first_peak_detected = true ∧
    (qrsStep^[625] QrsState.init).sample_count = 0 ∧
    (qrsStep^[625] QrsState.init).nopeak_count = 0 ∧
    (qrsStep^[625] QrsState.init).s_array_index = 0 ∧
    (qrsStep^[625] QrsState.init).m_array_index = 0 ∧
    (qrsStep^[625] QrsState.init).sample_sum = 0 ∧
    (qrsStep^[625] QrsState.init).first_peak_detect = false ∧
    QrsState.init.first_peak_detected = false := by
  have h625 : qrsStep^[625] QrsState.init =
      { QrsState.init with first_peak_detected := true, qrs_b4_buffer_ptr := 125 } := by
    rw [show (625 : ℕ) = 624 + 1 by norm_num, Function.iterate_succ_apply',
      qrs_silent_624]
    decide
  rw [h625]
  exact ⟨rfl, rfl, rfl, rfl, rfl, rfl, rfl, rfl, rfl⟩

/-! ### C5 — what the heart-rate callback carries -/

/-- Feeding a concatenation feeds the pieces in order, concatenating the
emitted events. -/
theorem adc_to_voltage_zero : adc_to_voltage 0 18 = 0 := by decide

theorem red_bytes_decode : (0xF4 : ℕ) ||| ((0x01 : ℕ) <<< 8) = 500 := by decide

/-- The first test frame takes the fresh pipeline to `frameState 1`. -/
theorem pipeline_frame0 :
    feedMany PDState.init (frameFor 0) =
      (frameState 1, [PDEvent.sample 0 (irVal 0) 500]) := by
  decide

/-- Twenty further test frames, from `frameState 20` on. -/
theorem pipeline_chunk20 :
    feedMany (frameState 20) (framesFrom 20 20) =
      (frameState 40, eventsFrom 20 20) := by
  decide

/-- Twenty further test frames, from `frameState 40` on. -/
theorem pipeline_chunk40 :
    feedMany (frameState 40) (framesFrom 40 20) =
      (frameState 60, eventsFrom 40 20) := by
  decide

/-- Twenty further test frames, from `frameState 60` on. -/
theorem pipeline_chunk60 :
    feedMany (frameState 60) (framesFrom 60 20) =
      (frameState 80, eventsFrom 60 20) := by
  decide

/-- Nineteen further test frames, from `frameState 80` on. -/
theorem pipeline_chunk80 :
    feedMany (frameState 80) (framesFrom 80 19) =
      (frameState 99, eventsFrom 80 19) := by
  decide

/-- Splitting the test stream after `a` frames. -/
theorem frames_split (a k : ℕ) : frames (a + k) = frames a ++ framesFrom a k := by
  rw [frames, frames, framesFrom, List.range_add, List.flatMap_append]

/-- Splitting the expected sample events after `a` frames. -/
theorem sampleEvents_split (a k : ℕ) :
    sampleEvents (a + k) = sampleEvents a ++ eventsFrom a k := by
  rw [sampleEvents, sampleEvents, eventsFrom, List.range_add, List.map_append]

/-- The first 99 test frames: 99 buffered samples, 99 sample events, no
heart-rate emission yet. -/
theorem pipeline_99 :
    feedMany PDState.init (frames 99) = (frameState 99, sampleEvents 99) := by
  have s20 : feedMany PDState.init (frames 20) =
      (frameState 20, sampleEvents 20) := by decide
  have s40 : feedMany PDState.init (frames 40) =
      (frameState 40, sampleEvents 40) := by
    rw [show (40 : ℕ) = 20 + 20 from rfl, frames_split, feedMany_append,
      sampleEvents_split]
    simp only [s20, pipeline_chunk20]
  have s60 : feedMany PDState.init (frames 60) =
      (frameState 60, sampleEvents 60) := by
    rw [show (60 : ℕ) = 40 + 20 from rfl, frames_split, feedMany_append,
      sampleEvents_split]
    simp only [s40, pipeline_chunk40]
  have s80 : feedMany PDState.init (frames 80) =
      (frameState 80, sampleEvents 80) := by
    rw [show (80 : ℕ) = 60 + 20 from rfl, frames_split, feedMany_append,
      sampleEvents_split]
    simp only [s60, pipeline_chunk60]
  rw [show (99 : ℕ) = 80 + 19 from rfl, frames_split, feedMany_append,
    sampleEvents_split]
  simp only [s80, pipeline_chunk80]

/-- The 100th test frame fills both windows to 100 samples, so the SpO2
estimator runs on them: it emits the decoded sample, then the in-band
heart rate 75 computed by `estimate_spo2` from the two designed IR valleys
(gap 20 ⇒ 60·25/20 = 75), then the SpO2 text (unavailable); the QRS
detector's own heart-rate attribute is still 0. -/
theorem pipeline_frame100 :
    (feedMany (frameState 99) (frameFor 99)).2 =
      [PDEvent.sample 0 10000 500, PDEvent.hrEmit 75, PDEvent.spo2Emit none] ∧
    (feedMany (frameState 99) (frameFor 99)).1.ecg_processor.heart_rate = 0 ∧
    (feedMany (frameState 99) (frameFor 99)).1.heart_rate = some 75 := by
  refine ⟨by decide, by decide, by decide⟩

theorem filter_isHrEmit_sampleEvents (m : ℕ) :
    (sampleEvents m).filter isHrEmit = [] := by
  rw [sampleEvents, List.filter_map,
    show (isHrEmit ∘ fun i => PDEvent.sample 0 (irVal i) 500) = fun _ => false
      from rfl,
    List.filter_false]
  rfl

/-- C5 counterexample: feeding the fresh pipeline the 100 concrete test
frames (constant zero ECG, the designed IR window, constant RED), exactly
one heart-rate value is surfaced through the heart-rate callback — 75, the
SpO2-branch estimate computed by `estimate_spo2` — while the QRS detector's
own heart-rate estimate is 0 throughout (it has seen 100 samples, far short
of the 250 needed to calibrate, and indeed ends at 0).  The surfaced value
is therefore not the QRS-based estimate. -/
theorem heart_rate_callback_not_qrs :
    (feedMany PDState.init (frames 100)).2.filter isHrEmit = [PDEvent.hrEmit 75] ∧
    (feedMany PDState.init (frames 100)).1.ecg_processor.heart_rate = 0 ∧
    (feedMany PDState.init (frames 100)).1.heart_rate = some 75 ∧
    ((75 : ℚ) ≠ 0) := by
  have hsplit : frames 100 = frames 99 ++ frameFor 99 := by
    rw [show (100 : ℕ) = 99 + 1 from rfl, frames_split]
    congr 1
  rw [hsplit, feedMany_append]
  simp only [pipeline_99]
  refine ⟨?_, pipeline_frame100.2.1, pipeline_frame100.2.2, by norm_num⟩
  rw [List.filter_append, filter_isHrEmit_sampleEvents, List.nil_append,
    pipeline_frame100.1]
  rfl

/-- C5 amended: every value surfaced through the heart-rate callback lies
in the band `[60, 140]` and is `int(...)` of the heart rate returned by
`estimate_spo2` on the current 100-sample windows (the SpO2-branch
estimate, which overwrites the QRS-based `heart_rate` before the band
check); the QRS-based estimate itself is not what is emitted. -/
theorem heart_rate_callback_band_and_source (s : PDState) (v : ℤ)
    (hv : PDEvent.hrEmit v ∈ (frame_complete s).2) :
    ∃ h : ℚ, v = pytrunc h ∧ 60 ≤ h ∧ h ≤ 140 ∧
      (estimate_spo2
          (((pushWindow s.ir_samples (decoded_ir s)).drop
              ((pushWindow s.ir_samples (decoded_ir s)).length - 100)).map
            (fun (x : ℕ) => (x : ℚ)))
          (((pushWindow s.red_samples (decoded_red s)).drop
              ((pushWindow s.red_samples (decoded_red s)).length - 100)).map
            (fun (x : ℕ) => (x : ℚ)))).2 = some h := by
  simp only [frame_complete] at hv
  by_cases hcond : (pushWindow s.ir_samples (decoded_ir s)).length ≥ 100 ∧
      (pushWindow s.red_samples (decoded_red s)).length ≥ 100
  · rw [if_pos hcond] at hv
    rcases hres : (estimate_spo2
        (((pushWindow s.ir_samples (decoded_ir s)).drop
            ((pushWindow s.ir_samples (decoded_ir s)).length - 100)).map
          (fun (x : ℕ) => (x : ℚ)))
        (((pushWindow s.red_samples (decoded_red s)).drop
            ((pushWindow s.red_samples (decoded_red s)).length - 100)).map
          (fun (x : ℕ) => (x : ℚ)))).2 with _ | h
    · rw [hres] at hv
      simp at hv
    · rw [hres] at hv
      by_cases hband : 60 ≤ h ∧ h ≤ 140
      · simp [hband] at hv
        exact ⟨h, hv, hband.1, hband.2, rfl⟩
      · simp [hband] at hv
  · rw [if_neg hcond] at hv
    simp at hv

/-- Witness for `heart_rate_callback_band_and_source`: completing one frame
on `stagedState` (99 buffered samples plus the staged 100th in the payload
buffer) emits the heart-rate value 75 through the callback. -/
theorem heart_rate_callback_band_and_source_witness :
    PDEvent.hrEmit 75 ∈ (frame_complete stagedState).2 ∧
      ∃ h : ℚ, (75 : ℤ) = pytrunc h ∧ 60 ≤ h ∧ h ≤ 140 ∧
        (estimate_spo2
            (((pushWindow stagedState.ir_samples (decoded_ir stagedState)).drop
                ((pushWindow stagedState.ir_samples (decoded_ir stagedState)).length
                  - 100)).map (fun (x : ℕ) => (x : ℚ)))
            (((pushWindow stagedState.red_samples (decoded_red stagedState)).drop
                ((pushWindow stagedState.red_samples (decoded_red stagedState)).length
                  - 100)).map (fun (x : ℕ) => (x : ℚ)))).2 = some h := by
  have hv : PDEvent.hrEmit 75 ∈ (frame_complete stagedState).2 := by decide
  exact ⟨hv, heart_rate_callback_band_and_source stagedState 75 hv⟩

end Monitor
